import Mathlib

/-!
Shallow embedding of the UF2 flasher core of the uf2loader repository
(src/ui/uf2.c), of the proginfo / boot-command record (proginfo.c, the
unnamed translation unit defining bl_proginfo_clear, bl_proginfo_set,
bl_get_command and friends), and of the stage-3 boot-mode selection
(src/stage3/stage3.c).

Machine integers are modelled as Nat with explicit reduction modulo 2^32
wherever the C source performs 32-bit arithmetic that can wrap.  Flash is
modelled as a byte map `Nat → Nat` together with an explicit trace of the
erase/program operations issued by the loader; the flash driver itself
(flash_range_erase / rom_flash_op) is out of scope and is modelled as
always succeeding, with the post-conditions of the spec's driver contract
(erase sets bytes to 0xFF, program overwrites bytes with the buffer).
-/

/-- Width of the machine words used throughout the C source (uint32_t). -/
def U32 : Nat := 2 ^ 32

/-- Wrapping 32-bit addition, as performed on uint32_t values in C. -/
def add32 (a b : Nat) : Nat := (a + b) % U32

/-- Wrapping 32-bit subtraction, as performed on uint32_t values in C. -/
def sub32 (a b : Nat) : Nat := (a + U32 - b % U32) % U32

/-- Wrapping 32-bit multiplication, as performed on uint32_t values in C. -/
def mul32 (a b : Nat) : Nat := (a * b) % U32

/-- XIP_BASE of the RP2040/RP2350 address map (hardware/regs/addressmap.h). -/
def XIP_BASE : Nat := 0x10000000

/-- FLASH_PAGE_SIZE from hardware/flash.h. -/
def FLASH_PAGE_SIZE : Nat := 256

/-- FLASH_SECTOR_SIZE from hardware/flash.h. -/
def FLASH_SECTOR_SIZE : Nat := 4096

/-- BOOT2_SIZE from src/ui/uf2.c. -/
def BOOT2_SIZE : Nat := 256

/-- UF2_MAGIC_START0 from boot/uf2.h. -/
def UF2_MAGIC_START0 : Nat := 0x0A324655

/-- UF2_MAGIC_START1 from boot/uf2.h. -/
def UF2_MAGIC_START1 : Nat := 0x9E5D5157

/-- UF2_MAGIC_END from boot/uf2.h. -/
def UF2_MAGIC_END : Nat := 0x0AB16F30

/-- UF2_FLAG_NOT_MAIN_FLASH from boot/uf2.h. -/
def UF2_FLAG_NOT_MAIN_FLASH : Nat := 0x00000001

/-- UF2_FLAG_FAMILY_ID_PRESENT from boot/uf2.h. -/
def UF2_FLAG_FAMILY_ID_PRESENT : Nat := 0x00002000

/-- RP2040_FAMILY_ID. -/
def RP2040_FAMILY_ID : Nat := 0xe48bff56

/-- ABSOLUTE_FAMILY_ID. -/
def ABSOLUTE_FAMILY_ID : Nat := 0xe48bff57

/-- RP2350_ARM_S_FAMILY_ID. -/
def RP2350_ARM_S_FAMILY_ID : Nat := 0xe48bff59

/-- RP2350_RISCV_FAMILY_ID. -/
def RP2350_RISCV_FAMILY_ID : Nat := 0xe48bff5a

/-- RP2350_ARM_NS_FAMILY_ID. -/
def RP2350_ARM_NS_FAMILY_ID : Nat := 0xe48bff5b

/-- PICOCALC_BL_MAGIC from proginfo.h. -/
def PICOCALC_BL_MAGIC : Nat := 0xe98cc638

/-- The two compile-time platform variants of the source (PICO_RP2040 vs
PICO_RP2350 preprocessor conditionals). -/
inductive Platform
  | rp2040
  | rp2350
deriving DecidableEq

/-- VECTOR_HOLE_OFFSET from proginfo.c: 0x110 on RP2040, 0x20 on RP2350. -/
def VECTOR_HOLE_OFFSET (p : Platform) : Nat :=
  match p with
  | .rp2040 => 0x110
  | .rp2350 => 0x20

/-- PICOCALC_PROGINFO_ADDR = XIP_BASE + VECTOR_HOLE_OFFSET. -/
def PICOCALC_PROGINFO_ADDR (p : Platform) : Nat := XIP_BASE + VECTOR_HOLE_OFFSET p

/-- Size in bytes of struct bl_info_t: magic (4) + flash_end (4), plus the
20-byte filename field on RP2040 only. -/
def BL_INFO_SIZE (p : Platform) : Nat :=
  match p with
  | .rp2040 => 28
  | .rp2350 => 8

/-- Struct uf2_block (boot/uf2.h): all scalar fields are uint32_t, `data`
is the 476-byte payload area modelled as a list of bytes. -/
structure uf2_block where
  magic_start0 : Nat
  magic_start1 : Nat
  flags : Nat
  target_addr : Nat
  payload_size : Nat
  block_no : Nat
  num_blocks : Nat
  file_size : Nat
  data : List Nat
  magic_end : Nat
deriving DecidableEq

/-- Struct prog_state_t (src/ui/uf2.c): the cross-block state, a static
variable `s` in the C source. -/
structure prog_state_t where
  prog_addr : Nat
  num_blks : Nat
  num_blks_read : Nat
  num_blks_written : Nat
  malformed_uf2 : Bool
deriving DecidableEq

/-- The all-zero value the static `s` holds when the program starts. -/
def zero_prog_state : prog_state_t :=
  { prog_addr := 0, num_blks := 0, num_blks_read := 0, num_blks_written := 0,
    malformed_uf2 := false }

/-- family_valid from src/ui/uf2.c (one definition per platform variant). -/
def family_valid (p : Platform) (family_id : Nat) : Bool :=
  match p with
  | .rp2040 => family_id == RP2040_FAMILY_ID
  | .rp2350 =>
      family_id == RP2350_ARM_NS_FAMILY_ID || family_id == RP2350_ARM_S_FAMILY_ID ||
        family_id == RP2350_RISCV_FAMILY_ID

/-- check_generic_block from src/ui/uf2.c.  The C function reads the global
`prog_area_end` (modelled as the parameter `pae`) and can assign
`s.malformed_uf2` through the global `s`, so it returns the updated state
next to its boolean result. -/
def check_generic_block (p : Platform) (pae : Nat) (s : prog_state_t) (b : uf2_block) :
    Bool × prog_state_t :=
  if UF2_MAGIC_START0 ≠ b.magic_start0 ∨ UF2_MAGIC_START1 ≠ b.magic_start1 ∨
      UF2_MAGIC_END ≠ b.magic_end then
    (false, s)
  else if b.flags &&& UF2_FLAG_NOT_MAIN_FLASH ≠ 0 then
    (false, s)
  else if b.target_addr % FLASH_PAGE_SIZE ≠ 0 then
    (false, s)
  else if b.payload_size ≠ FLASH_PAGE_SIZE then
    (false, s)
  else if b.num_blocks = 0 then
    (false, s)
  else if b.block_no ≥ b.num_blocks then
    (false, s)
  else if b.flags &&& UF2_FLAG_FAMILY_ID_PRESENT ≠ 0 ∧ b.file_size = ABSOLUTE_FAMILY_ID ∧
      b.block_no = 0 ∧ b.target_addr = 0x10FFFF00 then
    (false, if b.num_blocks ≠ 2 then { s with malformed_uf2 := true } else s)
  else if b.flags &&& UF2_FLAG_FAMILY_ID_PRESENT ≠ 0 ∧ family_valid p b.file_size = false then
    (false, s)
  else if b.target_addr < XIP_BASE ∨ b.target_addr ≥ pae then
    (false, s)
  else
    (true, s)

/-- check_1st_block from src/ui/uf2.c.  It is called after the loop body has
assigned `s.num_blks`; it reads `s.malformed_uf2` (possibly just set by
check_generic_block) and `s.num_blks` through the global `s`. -/
def check_1st_block (p : Platform) (pae : Nat) (s : prog_state_t) (b : uf2_block) :
    Bool × prog_state_t :=
  match check_generic_block p pae s b with
  | (false, s1) => (false, s1)
  | (true, s1) =>
    if b.block_no ≠ (if s1.malformed_uf2 then 1 else 0) then
      (false, s1)
    else if add32 b.target_addr (mul32 FLASH_PAGE_SIZE s1.num_blks) > pae then
      (false, s1)
    else
      (true, s1)

/-- check_block from src/ui/uf2.c. -/
def check_block (p : Platform) (pae : Nat) (s : prog_state_t) (b : uf2_block) :
    Bool × prog_state_t :=
  match check_generic_block p pae s b with
  | (false, s1) => (false, s1)
  | (true, s1) =>
    if s1.num_blks ≠ sub32 b.num_blocks (if s1.malformed_uf2 then 1 else 0) then
      (false, s1)
    else if s1.num_blks_written ≠ sub32 b.block_no (if s1.malformed_uf2 then 1 else 0) then
      (false, s1)
    else if add32 s1.prog_addr (mul32 FLASH_PAGE_SIZE s1.num_blks_written) ≠ b.target_addr then
      (false, s1)
    else
      (true, s1)

/-- check_EOT from src/ui/uf2.c. -/
def check_EOT (s : prog_state_t) : Bool := s.num_blks == s.num_blks_written

/-- One operation issued to the flash driver: an erase of `size` bytes from
`addr`, or a program of the bytes `data` at `addr`.  Addresses are the
virtual (XIP-mapped) addresses the orchestrator works in. -/
inductive FlashEvent
  | erase (addr : Nat) (size : Nat)
  | program (addr : Nat) (data : List Nat)
deriving DecidableEq

/-- Address of a flash event. -/
def FlashEvent.addr : FlashEvent → Nat
  | .erase a _ => a
  | .program a _ => a

/-- Data of a program event ([] for an erase). -/
def FlashEvent.bytes : FlashEvent → List Nat
  | .erase _ _ => []
  | .program _ d => d

/-- Effect of one driver operation on the flash byte map, per the driver
contract: erase sets every byte of the range to 0xFF, program overwrites
the range with the buffer. -/
def applyEvent (f : Nat → Nat) : FlashEvent → (Nat → Nat)
  | .erase addr size => fun x => if addr ≤ x ∧ x < addr + size then 0xFF else f x
  | .program addr d => fun x => if addr ≤ x ∧ x < addr + d.length then d.getD (x - addr) 0 else f x

/-- Effect of a trace of driver operations, applied in order. -/
def applyEvents (f : Nat → Nat) (es : List FlashEvent) : Nat → Nat := es.foldl applyEvent f

/-- Size actually passed to the hardware erase by the FLASH_ERASE wrapper of
src/ui/uf2.c: the RP2040 wrapper forwards size_bytes to flash_range_erase
unchanged; the RP2350 wrapper first computes
`(size_bytes + 0x1FFF) & -FLASH_SECTOR_SIZE` on uint32_t. -/
def FLASH_ERASE_size (p : Platform) (size_bytes : Nat) : Nat :=
  match p with
  | .rp2040 => size_bytes
  | .rp2350 => Nat.land (add32 size_bytes 0x1FFF) (U32 - FLASH_SECTOR_SIZE)

/-- FLASH_ERASE from src/ui/uf2.c as a driver operation.  The RP2040 wrapper
calls flash_range_erase(address - XIP_BASE, size); in the virtual address
space this erases [address, address + size).  Driver failure is not
modelled (flash_range_erase returns no error; rom_flash_op is modelled as
succeeding), so the `< 0` early-return in the caller is dead here. -/
def FLASH_ERASE (p : Platform) (address size_bytes : Nat) : FlashEvent :=
  .erase address (FLASH_ERASE_size p size_bytes)

/-- Read the `n` flash bytes starting at `addr` into a RAM buffer (the
memcpy-from-XIP idiom of the source). -/
def readFlash (f : Nat → Nat) (addr n : Nat) : List Nat :=
  (List.range n).map fun i => f (addr + i)

/-- Overwrite `len` bytes of `buf` starting at offset `off` with `v`
(memset(buf + off, v, len) on a byte buffer). -/
def memset_range (buf : List Nat) (off len v : Nat) : List Nat :=
  (List.range buf.length).map fun i => if off ≤ i ∧ i < off + len then v else buf.getD i 0

/-- Overwrite the bytes of `buf` starting at offset `off` with `bytes`
(memcpy(buf + off, bytes, bytes.length) on a byte buffer). -/
def write_bytes (buf : List Nat) (off : Nat) (bytes : List Nat) : List Nat :=
  (List.range buf.length).map fun i =>
    if off ≤ i ∧ i < off + bytes.length then bytes.getD (i - off) 0 else buf.getD i 0

/-- Little-endian byte image of a uint32_t value. -/
def u32le (v : Nat) : List Nat := [v % 256, v / 256 % 256, v / 65536 % 256, v / 16777216 % 256]

/-- Covering test of struct_from_buf (proginfo.c): the buffer that represents
the address range [start_addr, start_addr + size) contains the whole
proginfo slot iff start_addr ≤ PICOCALC_PROGINFO_ADDR and
start_addr + size ≥ PICOCALC_PROGINFO_ADDR + sizeof(struct bl_info_t);
the sum is uint32/size_t arithmetic. -/
def proginfo_covered (p : Platform) (start_addr size : Nat) : Bool :=
  decide (start_addr ≤ PICOCALC_PROGINFO_ADDR p ∧
    PICOCALC_PROGINFO_ADDR p + BL_INFO_SIZE p ≤ add32 start_addr size)

/-- bl_proginfo_clear from proginfo.c: when the buffer covers the proginfo
slot, memset the slot's bytes inside the buffer to 0xFF; otherwise leave
the buffer untouched. -/
def bl_proginfo_clear (p : Platform) (buffer : List Nat) (start_addr size : Nat) : List Nat :=
  if proginfo_covered p start_addr size then
    memset_range buffer (PICOCALC_PROGINFO_ADDR p - start_addr) (BL_INFO_SIZE p) 0xFF
  else
    buffer

/-- bl_proginfo_set from proginfo.c: when the buffer covers the proginfo
slot, write the record (filename bytes zero-padded to 20 on RP2040, then
flash_end, then magic) into the buffer and report true. -/
def bl_proginfo_set (p : Platform) (buffer : List Nat) (start_addr size flash_end : Nat)
    (filename : List Nat) : Bool × List Nat :=
  if proginfo_covered p start_addr size then
    let off := PICOCALC_PROGINFO_ADDR p - start_addr
    let buf1 :=
      match p with
      | .rp2040 =>
          write_bytes buffer (off + 8)
            (filename.take 20 ++ List.replicate (20 - min filename.length 20) 0)
      | .rp2350 => buffer
    let buf2 := write_bytes buf1 (off + 4) (u32le flash_end)
    (true, write_bytes buf2 off (u32le PICOCALC_BL_MAGIC))
  else
    (false, buffer)

/-- bl_proginfo_page from proginfo.c: PICOCALC_PROGINFO_ADDR & -FLASH_PAGE_SIZE
on uintptr_t. -/
def bl_proginfo_page (p : Platform) : Nat :=
  Nat.land (PICOCALC_PROGINFO_ADDR p) (U32 - FLASH_PAGE_SIZE)

/-- Little-endian uint32_t read from the flash byte map. -/
def read32 (f : Nat → Nat) (a : Nat) : Nat :=
  f a + 256 * f (a + 1) + 65536 * f (a + 2) + 16777216 * f (a + 3)

/-- bl_proginfo_valid from proginfo.c: the magic word of the proginfo slot
in flash equals PICOCALC_BL_MAGIC. -/
def bl_proginfo_valid (p : Platform) (f : Nat → Nat) : Bool :=
  read32 f (PICOCALC_PROGINFO_ADDR p) == PICOCALC_BL_MAGIC

/-- handle_boot_stage2 from src/ui/uf2.c.  On RP2350 it is the constant
false stub.  On RP2040, when the first block's target lies in sector 0, it
copies the resident 256-byte boot stub out of flash, erases from XIP_BASE,
reprograms the saved stub at XIP_BASE, and programs the block's payload at
its target only when that target is not XIP_BASE itself. -/
def handle_boot_stage2 (p : Platform) (flash : Nat → Nat) (b : uf2_block) :
    Bool × List FlashEvent :=
  match p with
  | .rp2350 => (false, [])
  | .rp2040 =>
    if b.target_addr ≥ XIP_BASE + FLASH_SECTOR_SIZE then
      (false, [])
    else
      let boot2 := readFlash flash XIP_BASE BOOT2_SIZE
      (true,
        [FLASH_ERASE .rp2040 XIP_BASE (mul32 b.num_blocks b.payload_size),
         .program XIP_BASE boot2] ++
          (if b.target_addr ≠ XIP_BASE then
            [FlashEvent.program b.target_addr (b.data.take FLASH_PAGE_SIZE)]
          else
            []))

/-- In the loop body of load_application_from_uf2, the branch taken when
s.num_blks_written > 0 (every block after the first accepted one):
validate with check_block; on success clear the proginfo slot inside the
payload buffer with bl_proginfo_clear, program one page at target_addr,
and count the block as written. -/
def load_step_rest (p : Platform) (pae : Nat) (s : prog_state_t) (flash : Nat → Nat)
    (b : uf2_block) : (prog_state_t × (Nat → Nat)) × List FlashEvent :=
  match check_block p pae s b with
  | (false, s2) => ((s2, flash), [])
  | (true, s2) =>
    let cleared := bl_proginfo_clear p b.data b.target_addr b.payload_size
    let ev := FlashEvent.program b.target_addr (cleared.take FLASH_PAGE_SIZE)
    (({ s2 with num_blks_written := add32 s2.num_blks_written 1 }, applyEvent flash ev), [ev])

/-- In the loop body of load_application_from_uf2, the branch taken while
s.num_blks_written = 0 (looking for the first accepted block); the caller
has already stored b.num_blocks - (malformed?1:0) into s.num_blks.  On
success, either handle_boot_stage2 takes over (sector-0 case on RP2040) or
the target range is erased and the raw payload programmed; the payload is
NOT passed through bl_proginfo_clear in this branch. -/
def load_step_first (p : Platform) (pae : Nat) (s : prog_state_t) (flash : Nat → Nat)
    (b : uf2_block) : (prog_state_t × (Nat → Nat)) × List FlashEvent :=
  match check_1st_block p pae s b with
  | (false, s3) => ((s3, flash), [])
  | (true, s3) =>
    let hb := handle_boot_stage2 p flash b
    let evs :=
      if hb.1 then hb.2
      else
        [FLASH_ERASE p b.target_addr (mul32 s3.num_blks b.payload_size),
         FlashEvent.program b.target_addr (b.data.take FLASH_PAGE_SIZE)]
    (({ s3 with prog_addr := b.target_addr,
                num_blks_written := add32 s3.num_blks_written 1 },
      applyEvents flash evs), evs)

/-- One iteration of the while loop of load_application_from_uf2 over one
512-byte block read from the stream.  The pair carries the C static `s`
and the flash byte map; the returned list holds the driver operations this
iteration issued, already applied to the returned flash map. -/
def load_step (p : Platform) (pae : Nat) (st : prog_state_t × (Nat → Nat)) (b : uf2_block) :
    (prog_state_t × (Nat → Nat)) × List FlashEvent :=
  let s1 := { st.1 with num_blks_read := add32 st.1.num_blks_read 1 }
  if s1.num_blks_written > 0 then
    load_step_rest p pae s1 st.2 b
  else
    load_step_first p pae
      { s1 with num_blks := sub32 b.num_blocks (if s1.malformed_uf2 then 1 else 0) } st.2 b

/-- The while loop of load_application_from_uf2 over the list of complete
512-byte blocks delivered by fread, accumulating the driver trace. -/
def loadLoop (p : Platform) (pae : Nat)
    (acc : (prog_state_t × (Nat → Nat)) × List FlashEvent) (blocks : List uf2_block) :
    (prog_state_t × (Nat → Nat)) × List FlashEvent :=
  blocks.foldl
    (fun acc b =>
      let r := load_step p pae acc.1 b
      (r.1, acc.2 ++ r.2))
    acc

/-- Result of one call to load_application_from_uf2: its boolean return
value, the final cross-block state, the final flash byte map, and the
trace of driver operations issued. -/
structure LoadOut where
  ok : Bool
  s : prog_state_t
  flash : Nat → Nat
  trace : List FlashEvent

/-- load_application_from_uf2 from src/ui/uf2.c.  `pae` is the value the
function reads into the global prog_area_end from bl_info_get_flash_end()
(0 models the NULL "invalid bootloader" case); `sInit` is the value the
C static `s` holds when the call starts (the source does not reset it);
`blocks` is the list of complete 512-byte blocks fread delivers before
EOF; `filename` is the byte string passed on to bl_proginfo_set by the
RP2040 commit step.  File open failure is not modelled (it returns false
with no effects, like pae = 0). -/
def load_application_from_uf2 (p : Platform) (pae : Nat) (flash0 : Nat → Nat)
    (filename : List Nat) (blocks : List uf2_block) (sInit : prog_state_t) : LoadOut :=
  if pae = 0 then
    { ok := false, s := sInit, flash := flash0, trace := [] }
  else
    let r := loadLoop p pae ((sInit, flash0), []) blocks
    let sFin := r.1.1
    let flashFin := r.1.2
    let trace := r.2
    if sFin.num_blks = 0 then
      { ok := false, s := sFin, flash := flashFin, trace := trace }
    else if check_EOT sFin = false then
      { ok := false, s := sFin, flash := flashFin, trace := trace }
    else
      match p with
      | .rp2350 => { ok := true, s := sFin, flash := flashFin, trace := trace }
      | .rp2040 =>
        let page := bl_proginfo_page .rp2040
        let page_copy := readFlash flashFin page FLASH_PAGE_SIZE
        let page_copy2 :=
          (bl_proginfo_set .rp2040 page_copy page FLASH_PAGE_SIZE pae filename).2
        let ev := FlashEvent.program page page_copy2
        { ok := true, s := sFin, flash := applyEvent flashFin ev, trace := trace ++ [ev] }

/-- The three watchdog scratch words used for the boot command
(watchdog_hw->scratch[0..2]). -/
structure Scratch where
  w0 : Nat
  w1 : Nat
  w2 : Nat
deriving DecidableEq

/-- bl_stage3_command from proginfo.c: store mode in scratch[1], arg in
scratch[2], then the validity magic in scratch[0] (32-bit registers). -/
def bl_stage3_command (_sc : Scratch) (mode arg : Nat) : Scratch :=
  { w0 := PICOCALC_BL_MAGIC, w1 := mode % U32, w2 := arg % U32 }

/-- bl_get_command from proginfo.c: when scratch[0] holds the magic, clear
scratch[0] and return (scratch[1], scratch[2]); otherwise return none and
touch nothing (in C: return false with *mode and *arg unassigned). -/
def bl_get_command (sc : Scratch) : Option (Nat × Nat) × Scratch :=
  if sc.w0 = PICOCALC_BL_MAGIC then
    (some (sc.w1, sc.w2), { sc with w0 := 0 })
  else
    (none, sc)

/-- Boot-mode selection at the top of stage-3's main (src/stage3/stage3.c):
mode starts as the keyboard-selected mode from read_bootmode(); a valid
boot command overwrites it through bl_get_command's out-parameter. -/
def stage3_select_mode (keyboard_mode : Nat) (sc : Scratch) : Nat × Scratch :=
  match bl_get_command sc with
  | (some ma, sc1) => (ma.1, sc1)
  | (none, sc1) => (keyboard_mode, sc1)

/-- The loop over an empty stream leaves the accumulator untouched. -/
lemma loadLoop_nil (p : Platform) (pae : Nat)
    (acc : (prog_state_t × (Nat → Nat)) × List FlashEvent) :
    loadLoop p pae acc [] = acc := rfl

/-- Return-value characterization of load_application_from_uf2: the call
returns true exactly when flash_end was available and, after the whole
stream has been consumed, s.num_blks is nonzero and equals
s.num_blks_written. -/
lemma load_ok_iff (p : Platform) (pae : Nat) (flash0 : Nat → Nat) (filename : List Nat)
    (blocks : List uf2_block) (sInit : prog_state_t) :
    (load_application_from_uf2 p pae flash0 filename blocks sInit).ok = true ↔
      (pae ≠ 0 ∧ (loadLoop p pae ((sInit, flash0), []) blocks).1.1.num_blks ≠ 0 ∧
        (loadLoop p pae ((sInit, flash0), []) blocks).1.1.num_blks =
          (loadLoop p pae ((sInit, flash0), []) blocks).1.1.num_blks_written) := by
  unfold load_application_from_uf2
  rcases Nat.eq_zero_or_pos pae with hpae | hpae
  · simp [hpae]
  · have hne : pae ≠ 0 := Nat.pos_iff_ne_zero.mp hpae
    simp only [if_neg hne]
    set sFin := (loadLoop p pae ((sInit, flash0), []) blocks).1.1 with hFin
    by_cases h0 : sFin.num_blks = 0
    · simp [h0]
    · simp only [if_neg h0]
      by_cases hEOT : check_EOT sFin = false
      · have : ¬ sFin.num_blks = sFin.num_blks_written := by
          simpa [check_EOT, beq_eq_false_iff_ne] using hEOT
        simp [hEOT, hne, h0, this]
      · have hEq : sFin.num_blks = sFin.num_blks_written := by
          have := eq_true_of_ne_false hEOT
          simpa [check_EOT, beq_iff_eq] using this
        have hw0 : ¬ sFin.num_blks_written = 0 := hEq ▸ h0
        simp only [hEOT]
        cases p <;> simp [hne, h0, hEq, hw0, eq_true_of_ne_false hEOT]

/-- The boolean verdict of check_generic_block does not depend on the
carried state (the state is only ever written, never read, by it). -/
lemma check_generic_block_fst_indep (p : Platform) (pae : Nat) (s s' : prog_state_t)
    (b : uf2_block) :
    (check_generic_block p pae s b).1 = (check_generic_block p pae s' b).1 := by
  unfold check_generic_block
  repeat' split
  all_goals rfl

/-- Everything a block must satisfy for check_generic_block to say true:
the three magics, clear not-main-flash flag, page alignment, page-sized
payload, nonzero block count, in-range block number, family validity when
the family flag is present, and target within [XIP_BASE, pae). -/
lemma check_generic_block_true {p : Platform} {pae : Nat} {s : prog_state_t} {b : uf2_block}
    (h : (check_generic_block p pae s b).1 = true) :
    b.magic_start0 = UF2_MAGIC_START0 ∧ b.magic_start1 = UF2_MAGIC_START1 ∧
    b.magic_end = UF2_MAGIC_END ∧ b.flags &&& UF2_FLAG_NOT_MAIN_FLASH = 0 ∧
    b.target_addr % FLASH_PAGE_SIZE = 0 ∧ b.payload_size = FLASH_PAGE_SIZE ∧
    b.num_blocks ≠ 0 ∧ b.block_no < b.num_blocks ∧
    (b.flags &&& UF2_FLAG_FAMILY_ID_PRESENT ≠ 0 → family_valid p b.file_size = true) ∧
    XIP_BASE ≤ b.target_addr ∧ b.target_addr < pae := by
  unfold check_generic_block at h
  split_ifs at h with h1 h2 h3 h4 h5 h6 h7 h8 h9
  push_neg at h1 h9
  refine ⟨h1.1.symm, h1.2.1.symm, h1.2.2.symm, by omega, by omega, by omega, h5, by omega,
    ?_, ?_, ?_⟩
  · intro hfam
    by_cases hv : family_valid p b.file_size = true
    · exact hv
    · exact absurd ⟨hfam, by simpa using hv⟩ h8
  · exact h9.1
  · exact h9.2

/-- Exhaustive shape of check_generic_block's result: either it succeeds
and returns the state unchanged, or it fails and the state is unchanged or
has just the malformed_uf2 flag set. -/
lemma check_generic_block_cases (p : Platform) (pae : Nat) (s : prog_state_t) (b : uf2_block) :
    (check_generic_block p pae s b = (true, s)) ∨
    ((check_generic_block p pae s b).1 = false ∧
      ((check_generic_block p pae s b).2 = s ∨
        (check_generic_block p pae s b).2 = { s with malformed_uf2 := true })) := by
  unfold check_generic_block
  repeat' split
  all_goals simp

/-- When check_generic_block succeeds it leaves the state unchanged. -/
lemma check_generic_block_snd_of_true {p : Platform} {pae : Nat} {s : prog_state_t}
    {b : uf2_block} (h : (check_generic_block p pae s b).1 = true) :
    (check_generic_block p pae s b).2 = s := by
  rcases check_generic_block_cases p pae s b with hc | hc
  · rw [hc]
  · rw [hc.1] at h
    exact absurd h (by simp)

/-- check_block says true only if check_generic_block did. -/
lemma check_block_true_generic {p : Platform} {pae : Nat} {s : prog_state_t} {b : uf2_block}
    (h : (check_block p pae s b).1 = true) :
    (check_generic_block p pae s b).1 = true := by
  unfold check_block at h
  rcases hg : check_generic_block p pae s b with ⟨fst, s1⟩
  rw [hg] at h
  cases fst
  · simp at h
  · rfl

/-- check_1st_block says true only if check_generic_block did. -/
lemma check_1st_block_true_generic {p : Platform} {pae : Nat} {s : prog_state_t} {b : uf2_block}
    (h : (check_1st_block p pae s b).1 = true) :
    (check_generic_block p pae s b).1 = true := by
  unfold check_1st_block at h
  rcases hg : check_generic_block p pae s b with ⟨fst, s1⟩
  rw [hg] at h
  cases fst
  · simp at h
  · rfl

/-- Reading memset_range inside the overwritten window yields the fill
byte. -/
lemma memset_range_getD {buf : List Nat} {off len v i : Nat} (h1 : off ≤ i) (h2 : i < off + len)
    (h3 : i < buf.length) :
    (memset_range buf off len v).getD i 0 = v := by
  have hget : (memset_range buf off len v).get? i =
      some (if off ≤ i ∧ i < off + len then v else buf.getD i 0) := by
    unfold memset_range
    rw [List.get?_map, List.get?_range h3]
    rfl
  show ((memset_range buf off len v).get? i).getD 0 = v
  rw [hget]
  simp [h1, h2]

/-- The length of memset_range equals the length of its input buffer. -/
lemma memset_range_length (buf : List Nat) (off len v : Nat) :
    (memset_range buf off len v).length = buf.length := by
  unfold memset_range
  simp

/-- Reading a take inside its window is reading the underlying list. -/
lemma take_getD {l : List Nat} {n i : Nat} (h : i < n) : (l.take n).getD i 0 = l.getD i 0 := by
  show ((l.take n).get? i).getD 0 = (l.get? i).getD 0
  rw [List.get?_take h]

/-- Reading readFlash inside its window yields the flash byte. -/
lemma readFlash_getD {f : Nat → Nat} {addr n i : Nat} (h : i < n) :
    (readFlash f addr n).getD i 0 = f (addr + i) := by
  have hget : (readFlash f addr n).get? i = some (f (addr + i)) := by
    unfold readFlash
    rw [List.get?_map, List.get?_range h]
    rfl
  show ((readFlash f addr n).get? i).getD 0 = f (addr + i)
  rw [hget]
  rfl

/-- The length of readFlash is the requested byte count. -/
lemma readFlash_length (f : Nat → Nat) (addr n : Nat) : (readFlash f addr n).length = n := by
  unfold readFlash
  simp

/-- A non-empty event list from the rest-branch means check_block agreed. -/
lemma load_step_rest_events_ne {p : Platform} {pae : Nat} {s : prog_state_t} {flash : Nat → Nat}
    {b : uf2_block} (h : (load_step_rest p pae s flash b).2 ≠ []) :
    (check_block p pae s b).1 = true := by
  unfold load_step_rest at h
  rcases hc : check_block p pae s b with ⟨fst, s2⟩
  rw [hc] at h
  cases fst
  · simp at h
  · rfl

/-- The rest-branch issues either nothing or exactly the one page program
of the proginfo-cleared payload at the block's target address. -/
lemma load_step_rest_events {p : Platform} {pae : Nat} {s : prog_state_t} {flash : Nat → Nat}
    {b : uf2_block} :
    (load_step_rest p pae s flash b).2 = [] ∨
    (load_step_rest p pae s flash b).2 =
      [FlashEvent.program b.target_addr
        ((bl_proginfo_clear p b.data b.target_addr b.payload_size).take FLASH_PAGE_SIZE)] := by
  unfold load_step_rest
  rcases hc : check_block p pae s b with ⟨fst, s2⟩
  cases fst
  · exact Or.inl rfl
  · exact Or.inr rfl

/-- A non-empty event list from the first-branch means check_1st_block
agreed. -/
lemma load_step_first_events_ne {p : Platform} {pae : Nat} {s : prog_state_t} {flash : Nat → Nat}
    {b : uf2_block} (h : (load_step_first p pae s flash b).2 ≠ []) :
    (check_1st_block p pae s b).1 = true := by
  unfold load_step_first at h
  rcases hc : check_1st_block p pae s b with ⟨fst, s3⟩
  rw [hc] at h
  cases fst
  · simp at h
  · rfl

/-- Structure of one loop iteration: depending on whether a block has been
written already, the iteration is the rest-branch on the read-incremented
state or the first-branch on the read-incremented, num_blks-assigned
state. -/
lemma load_step_eq (p : Platform) (pae : Nat) (s : prog_state_t) (flash : Nat → Nat)
    (b : uf2_block) :
    load_step p pae (s, flash) b =
      (if s.num_blks_written > 0 then
        load_step_rest p pae { s with num_blks_read := add32 s.num_blks_read 1 } flash b
      else
        load_step_first p pae
          { s with num_blks_read := add32 s.num_blks_read 1,
                   num_blks := sub32 b.num_blocks (if s.malformed_uf2 then 1 else 0) } flash b) := by
  unfold load_step
  rfl

/-- C3: load_application_from_uf2 programs a block's payload into flash
only if the block carries the three UF2 magics, has the not-main-flash
flag clear, a page-aligned target address, a page-sized payload, a nonzero
total block count, a block number below that count, a family id valid for
this device whenever the family-id-present flag is set, and a target
inside [XIP_BASE, flash_end). -/
theorem uf2_program_only_if_block_valid (p : Platform) (pae : Nat) (s : prog_state_t)
    (flash : Nat → Nat) (b : uf2_block) (d : List Nat)
    (hmem : FlashEvent.program b.target_addr d ∈ (load_step p pae (s, flash) b).2) :
    b.magic_start0 = UF2_MAGIC_START0 ∧ b.magic_start1 = UF2_MAGIC_START1 ∧
    b.magic_end = UF2_MAGIC_END ∧ b.flags &&& UF2_FLAG_NOT_MAIN_FLASH = 0 ∧
    b.target_addr % FLASH_PAGE_SIZE = 0 ∧ b.payload_size = FLASH_PAGE_SIZE ∧
    b.num_blocks ≠ 0 ∧ b.block_no < b.num_blocks ∧
    (b.flags &&& UF2_FLAG_FAMILY_ID_PRESENT ≠ 0 → family_valid p b.file_size = true) ∧
    XIP_BASE ≤ b.target_addr ∧ b.target_addr < pae := by
  rw [load_step_eq] at hmem
  by_cases hw : s.num_blks_written > 0
  · rw [if_pos hw] at hmem
    have hne := List.ne_nil_of_mem hmem
    have hcb := load_step_rest_events_ne hne
    exact check_generic_block_true (check_block_true_generic hcb)
  · rw [if_neg hw] at hmem
    have hne := List.ne_nil_of_mem hmem
    have hcb := load_step_first_events_ne hne
    exact check_generic_block_true (check_1st_block_true_generic hcb)

/-- A well-formed single-block RP2350 UF2 stream used as concrete input. -/
def block_for_C3 : uf2_block :=
  { magic_start0 := UF2_MAGIC_START0, magic_start1 := UF2_MAGIC_START1,
    flags := UF2_FLAG_FAMILY_ID_PRESENT, target_addr := 0x10040000,
    payload_size := FLASH_PAGE_SIZE, block_no := 0, num_blocks := 1,
    file_size := RP2350_ARM_S_FAMILY_ID, data := List.replicate 476 7,
    magic_end := UF2_MAGIC_END }

set_option maxRecDepth 10000 in
/-- Witness for C3 at a concrete accepted block. -/
theorem uf2_program_only_if_block_valid_witness :
    block_for_C3.magic_start0 = UF2_MAGIC_START0 ∧
    block_for_C3.magic_start1 = UF2_MAGIC_START1 ∧
    block_for_C3.magic_end = UF2_MAGIC_END ∧
    block_for_C3.flags &&& UF2_FLAG_NOT_MAIN_FLASH = 0 ∧
    block_for_C3.target_addr % FLASH_PAGE_SIZE = 0 ∧
    block_for_C3.payload_size = FLASH_PAGE_SIZE ∧
    block_for_C3.num_blocks ≠ 0 ∧ block_for_C3.block_no < block_for_C3.num_blocks ∧
    (block_for_C3.flags &&& UF2_FLAG_FAMILY_ID_PRESENT ≠ 0 →
      family_valid .rp2350 block_for_C3.file_size = true) ∧
    XIP_BASE ≤ block_for_C3.target_addr ∧ block_for_C3.target_addr < 0x10100000 :=
  uf2_program_only_if_block_valid .rp2350 0x10100000 zero_prog_state (fun _ => 0) block_for_C3
    (block_for_C3.data.take FLASH_PAGE_SIZE) (by decide)

/-- Plain addition below 2^32 is not changed by the uint32 wrap. -/
lemma add32_eq {a b : Nat} (h : a + b < U32) : add32 a b = a + b := Nat.mod_eq_of_lt h

/-- bl_proginfo_clear never changes the buffer length. -/
lemma bl_proginfo_clear_length (p : Platform) (buffer : List Nat) (start_addr size : Nat) :
    (bl_proginfo_clear p buffer start_addr size).length = buffer.length := by
  unfold bl_proginfo_clear
  split
  · exact memset_range_length buffer _ _ _
  · rfl

/-- The proginfo slot address is small (far below 2^32), on both
platforms. -/
lemma proginfo_addr_small (p : Platform) : PICOCALC_PROGINFO_ADDR p + 256 < U32 := by
  cases p <;> decide

/-- C1 (amended): every page buffer the stream loop hands to program for a
block AFTER the first accepted one has the proginfo-slot bytes forced to
0xFF whenever the programmed range covers the slot.  (The first accepted
block's payload is programmed without this clearing; see the
counterexample.) -/
theorem uf2_rest_blocks_clear_proginfo (p : Platform) (pae : Nat) (s : prog_state_t)
    (flash : Nat → Nat) (b : uf2_block) (a : Nat) (d : List Nat)
    (hw : s.num_blks_written > 0)
    (hmem : FlashEvent.program a d ∈ (load_step p pae (s, flash) b).2)
    (hcov1 : a ≤ PICOCALC_PROGINFO_ADDR p)
    (hcov2 : PICOCALC_PROGINFO_ADDR p + BL_INFO_SIZE p ≤ a + d.length) :
    ∀ j, j < BL_INFO_SIZE p → d.getD (PICOCALC_PROGINFO_ADDR p - a + j) 0 = 0xFF := by
  intro j hj
  rw [load_step_eq, if_pos hw] at hmem
  rcases load_step_rest_events with he | he
  · rw [he] at hmem
    simp at hmem
  · rw [he] at hmem
    obtain ⟨ha, hd⟩ :
        a = b.target_addr ∧
          d = (bl_proginfo_clear p b.data b.target_addr b.payload_size).take FLASH_PAGE_SIZE := by
      simpa [FlashEvent.program.injEq] using hmem
    have hcb := @load_step_rest_events_ne p pae
      { s with num_blks_read := add32 s.num_blks_read 1 } flash b (by rw [he]; simp)
    have hconds := check_generic_block_true (check_block_true_generic hcb)
    have hps : b.payload_size = FLASH_PAGE_SIZE := hconds.2.2.2.2.2.1
    subst ha
    have hdlen : d.length ≤ FLASH_PAGE_SIZE := by
      rw [hd, List.length_take]
      exact Nat.min_le_left _ _
    have hdlen_data : d.length ≤ b.data.length := by
      rw [hd, List.length_take, bl_proginfo_clear_length]
      exact Nat.min_le_right _ _
    have hsmall : b.target_addr + FLASH_PAGE_SIZE < U32 := by
      have hP := proginfo_addr_small p
      unfold FLASH_PAGE_SIZE
      omega
    have hcov : proginfo_covered p b.target_addr b.payload_size = true := by
      unfold proginfo_covered
      rw [hps, add32_eq hsmall]
      have hle : PICOCALC_PROGINFO_ADDR p + BL_INFO_SIZE p ≤ b.target_addr + FLASH_PAGE_SIZE := by
        omega
      simp [hcov1, hle]
    have hoff : PICOCALC_PROGINFO_ADDR p - b.target_addr + j < FLASH_PAGE_SIZE := by
      omega
    have hoff2 : PICOCALC_PROGINFO_ADDR p - b.target_addr + j < b.data.length := by
      omega
    rw [hd]
    unfold bl_proginfo_clear
    rw [hcov]
    simp only [if_true]
    rw [take_getD hoff]
    exact memset_range_getD (Nat.le_add_right _ _) (by omega) hoff2

/-- A non-first RP2040 block whose page [0x10000100, 0x10000200) covers the
proginfo slot, used as a concrete input. -/
def block_for_C1w : uf2_block :=
  { magic_start0 := UF2_MAGIC_START0, magic_start1 := UF2_MAGIC_START1,
    flags := UF2_FLAG_FAMILY_ID_PRESENT, target_addr := 0x10000100,
    payload_size := FLASH_PAGE_SIZE, block_no := 1, num_blocks := 2,
    file_size := RP2040_FAMILY_ID, data := List.replicate 476 0x42,
    magic_end := UF2_MAGIC_END }

/-- Cross-block state after one accepted block at 0x10000000, used as a
concrete input. -/
def state_for_C1w : prog_state_t :=
  { prog_addr := 0x10000000, num_blks := 2, num_blks_read := 1, num_blks_written := 1,
    malformed_uf2 := false }

set_option maxRecDepth 10000 in
/-- Witness for the amended C1 at a concrete covering non-first block. -/
theorem uf2_rest_blocks_clear_proginfo_witness :
    ((bl_proginfo_clear .rp2040 block_for_C1w.data block_for_C1w.target_addr
        block_for_C1w.payload_size).take FLASH_PAGE_SIZE).getD
      (PICOCALC_PROGINFO_ADDR .rp2040 - 0x10000100 + 0) 0 = 0xFF :=
  uf2_rest_blocks_clear_proginfo .rp2040 0x10100000 state_for_C1w (fun _ => 0) block_for_C1w
    0x10000100
    ((bl_proginfo_clear .rp2040 block_for_C1w.data block_for_C1w.target_addr
        block_for_C1w.payload_size).take FLASH_PAGE_SIZE)
    (by decide) (by decide) (by decide) (by decide) 0 (by decide)

/-- First block of a concrete RP2040 stream whose first accepted block's
page covers the proginfo slot. -/
def block_for_C1_first : uf2_block :=
  { magic_start0 := UF2_MAGIC_START0, magic_start1 := UF2_MAGIC_START1,
    flags := UF2_FLAG_FAMILY_ID_PRESENT, target_addr := 0x10000100,
    payload_size := FLASH_PAGE_SIZE, block_no := 0, num_blocks := 2,
    file_size := RP2040_FAMILY_ID, data := List.replicate 476 0x42,
    magic_end := UF2_MAGIC_END }

/-- Second block of that stream. -/
def block_for_C1_second : uf2_block :=
  { magic_start0 := UF2_MAGIC_START0, magic_start1 := UF2_MAGIC_START1,
    flags := UF2_FLAG_FAMILY_ID_PRESENT, target_addr := 0x10000200,
    payload_size := FLASH_PAGE_SIZE, block_no := 1, num_blocks := 2,
    file_size := RP2040_FAMILY_ID, data := List.replicate 476 0x43,
    magic_end := UF2_MAGIC_END }

/-- Outcome of loading that stream on RP2040 from a flash filled with
0x5A bytes. -/
def out_for_C1 : LoadOut :=
  load_application_from_uf2 .rp2040 0x10100000 (fun _ => 0x5A) []
    [block_for_C1_first, block_for_C1_second] zero_prog_state

set_option maxRecDepth 100000 in
/-- Counterexample to C1 as stated: the very first accepted block of this
successful load covers the proginfo slot, yet the page buffer handed to
program (driver operation number 2, before the commit operation number 4)
carries the raw payload byte 0x42 in the slot, not 0xFF. -/
theorem uf2_first_block_not_cleared_cex :
    out_for_C1.trace.getD 2 (.erase 0 0) =
      FlashEvent.program 0x10000100 (List.replicate 256 0x42) ∧
    0x10000100 ≤ PICOCALC_PROGINFO_ADDR .rp2040 ∧
    PICOCALC_PROGINFO_ADDR .rp2040 + BL_INFO_SIZE .rp2040 ≤ 0x10000100 + 256 ∧
    (List.replicate 256 0x42).getD (PICOCALC_PROGINFO_ADDR .rp2040 - 0x10000100) 0 = 0x42 ∧
    (0x42 : Nat) ≠ 0xFF ∧
    out_for_C1.ok = true ∧
    out_for_C1.trace.length = 5 := by
  decide

/-- First block of a concrete RP2350 stream containing a bad block in the
middle. -/
def block_for_C2_first : uf2_block :=
  { magic_start0 := UF2_MAGIC_START0, magic_start1 := UF2_MAGIC_START1,
    flags := UF2_FLAG_FAMILY_ID_PRESENT, target_addr := 0x10040000,
    payload_size := FLASH_PAGE_SIZE, block_no := 0, num_blocks := 3,
    file_size := RP2350_ARM_S_FAMILY_ID, data := List.replicate 476 0x40,
    magic_end := UF2_MAGIC_END }

/-- A block with a corrupted end magic (a Reject reason per the spec). -/
def block_for_C2_bad : uf2_block :=
  { magic_start0 := UF2_MAGIC_START0, magic_start1 := UF2_MAGIC_START1,
    flags := UF2_FLAG_FAMILY_ID_PRESENT, target_addr := 0x10040100,
    payload_size := FLASH_PAGE_SIZE, block_no := 1, num_blocks := 3,
    file_size := RP2350_ARM_S_FAMILY_ID, data := List.replicate 476 0x41,
    magic_end := 0xDEADBEEF }

/-- The stream block following the corrupted one. -/
def block_for_C2_b1 : uf2_block :=
  { magic_start0 := UF2_MAGIC_START0, magic_start1 := UF2_MAGIC_START1,
    flags := UF2_FLAG_FAMILY_ID_PRESENT, target_addr := 0x10040100,
    payload_size := FLASH_PAGE_SIZE, block_no := 1, num_blocks := 3,
    file_size := RP2350_ARM_S_FAMILY_ID, data := List.replicate 476 0x41,
    magic_end := UF2_MAGIC_END }

/-- The last stream block. -/
def block_for_C2_b2 : uf2_block :=
  { magic_start0 := UF2_MAGIC_START0, magic_start1 := UF2_MAGIC_START1,
    flags := UF2_FLAG_FAMILY_ID_PRESENT, target_addr := 0x10040200,
    payload_size := FLASH_PAGE_SIZE, block_no := 2, num_blocks := 3,
    file_size := RP2350_ARM_S_FAMILY_ID, data := List.replicate 476 0x42,
    magic_end := UF2_MAGIC_END }

/-- Outcome of loading the stream with the corrupted middle block. -/
def out_for_C2 : LoadOut :=
  load_application_from_uf2 .rp2350 0x10100000 (fun _ => 0) []
    [block_for_C2_first, block_for_C2_bad, block_for_C2_b1, block_for_C2_b2] zero_prog_state

set_option maxRecDepth 100000 in
/-- Counterexample to C2 as stated: a block with a corrupted magic does not
abort the load; all four stream blocks are examined, the two blocks after
the corrupted one are still programmed (driver operation number 2 programs
the page at 0x10040100 after the corrupted block was seen), and the call
returns true rather than a reject outcome. -/
theorem uf2_reject_does_not_abort_cex :
    block_for_C2_bad.magic_end ≠ UF2_MAGIC_END ∧
    out_for_C2.ok = true ∧
    out_for_C2.s.num_blks_read = 4 ∧
    out_for_C2.s.num_blks_written = 3 ∧
    out_for_C2.trace.getD 2 (.erase 0 0) =
      FlashEvent.program 0x10040100 (List.replicate 256 0x41) ∧
    out_for_C2.trace.getD 3 (.erase 0 0) =
      FlashEvent.program 0x10040200 (List.replicate 256 0x42) := by
  decide

/-- check_generic_block can only touch the malformed_uf2 flag: the four
counters of the state survive it unchanged. -/
lemma check_generic_block_snd_fields (p : Platform) (pae : Nat) (s : prog_state_t)
    (b : uf2_block) :
    (check_generic_block p pae s b).2.num_blks_read = s.num_blks_read ∧
    (check_generic_block p pae s b).2.num_blks_written = s.num_blks_written ∧
    (check_generic_block p pae s b).2.num_blks = s.num_blks ∧
    (check_generic_block p pae s b).2.prog_addr = s.prog_addr := by
  rcases check_generic_block_cases p pae s b with hc | ⟨_, hc | hc⟩ <;> rw [hc] <;> simp

/-- check_block returns exactly the state check_generic_block produced. -/
lemma check_block_snd (p : Platform) (pae : Nat) (s : prog_state_t) (b : uf2_block) :
    (check_block p pae s b).2 = (check_generic_block p pae s b).2 := by
  unfold check_block
  rcases hg : check_generic_block p pae s b with ⟨fst, s1⟩
  cases fst
  · rfl
  · dsimp only
    split_ifs <;> rfl

/-- check_1st_block returns exactly the state check_generic_block
produced. -/
lemma check_1st_block_snd (p : Platform) (pae : Nat) (s : prog_state_t) (b : uf2_block) :
    (check_1st_block p pae s b).2 = (check_generic_block p pae s b).2 := by
  unfold check_1st_block
  rcases hg : check_generic_block p pae s b with ⟨fst, s1⟩
  cases fst
  · rfl
  · dsimp only
    split_ifs <;> rfl

/-- Every loop iteration increments num_blks_read by exactly one (uint32),
whatever the block contains and whether it is accepted, skipped or
invalid. -/
lemma load_step_read (p : Platform) (pae : Nat) (s : prog_state_t) (flash : Nat → Nat)
    (b : uf2_block) :
    (load_step p pae (s, flash) b).1.1.num_blks_read = add32 s.num_blks_read 1 := by
  rw [load_step_eq]
  by_cases hw : s.num_blks_written > 0
  · rw [if_pos hw]
    unfold load_step_rest
    set s1 : prog_state_t := { s with num_blks_read := add32 s.num_blks_read 1 } with hs1
    have hsnd := check_block_snd p pae s1 b
    have hfields := check_generic_block_snd_fields p pae s1 b
    rcases hc : check_block p pae s1 b with ⟨fst, s2⟩
    have hs2 : s2.num_blks_read = add32 s.num_blks_read 1 := by
      have h2 : s2 = (check_generic_block p pae s1 b).2 := by rw [← hsnd, hc]
      rw [h2, hfields.1]
    cases fst <;> simp [hs2]
  · rw [if_neg hw]
    unfold load_step_first
    set s1 : prog_state_t :=
      { s with num_blks_read := add32 s.num_blks_read 1,
               num_blks := sub32 b.num_blocks (if s.malformed_uf2 then 1 else 0) } with hs1
    have hsnd := check_1st_block_snd p pae s1 b
    have hfields := check_generic_block_snd_fields p pae s1 b
    rcases hc : check_1st_block p pae s1 b with ⟨fst, s3⟩
    have hs3 : s3.num_blks_read = add32 s.num_blks_read 1 := by
      have h3 : s3 = (check_generic_block p pae s1 b).2 := by rw [← hsnd, hc]
      rw [h3, hfields.1]
    cases fst <;> simp [hs3]

/-- Over any accumulator, the loop reads every block of the stream: the
final num_blks_read counts the initial value plus the stream length, as
long as the uint32 counter does not wrap. -/
lemma loadLoop_read_all (p : Platform) (pae : Nat) (blocks : List uf2_block) :
    ∀ (s : prog_state_t) (flash : Nat → Nat) (tr : List FlashEvent),
      s.num_blks_read + blocks.length < U32 →
      (loadLoop p pae ((s, flash), tr) blocks).1.1.num_blks_read =
        s.num_blks_read + blocks.length := by
  induction blocks with
  | nil => intro s flash tr _; simp [loadLoop]
  | cons b rest ih =>
    intro s flash tr h
    simp only [List.length_cons] at h
    have hstep : loadLoop p pae ((s, flash), tr) (b :: rest) =
        loadLoop p pae ((load_step p pae (s, flash) b).1,
          tr ++ (load_step p pae (s, flash) b).2) rest := rfl
    rw [hstep]
    rcases hr : (load_step p pae (s, flash) b).1 with ⟨s', flash'⟩
    have hread : s'.num_blks_read = s.num_blks_read + 1 := by
      have hv := load_step_read p pae s flash b
      rw [hr] at hv
      rw [hv, add32_eq]
      omega
    have hrec := ih s' flash' (tr ++ (load_step p pae (s, flash) b).2) (by omega)
    exact hrec.trans (by rw [hread, List.length_cons]; omega)

/-- C2 (amended): a block that fails validation does not abort the load;
the loop continues and examines every remaining block of the stream, so
the final num_blks_read counts the whole stream (per-block failures only
surface through the end-of-stream checks). -/
theorem uf2_failed_block_does_not_abort (p : Platform) (pae : Nat) (s : prog_state_t)
    (flash : Nat → Nat) (blocks : List uf2_block)
    (h : s.num_blks_read + blocks.length < U32) :
    (loadLoop p pae ((s, flash), []) blocks).1.1.num_blks_read =
      s.num_blks_read + blocks.length :=
  loadLoop_read_all p pae blocks s flash [] h

set_option maxRecDepth 100000 in
/-- Witness for the amended C2: the stream with the corrupted middle block
is read to its end, all four blocks examined. -/
theorem uf2_failed_block_does_not_abort_witness :
    (loadLoop .rp2350 0x10100000 ((zero_prog_state, fun _ => 0), [])
        [block_for_C2_first, block_for_C2_bad, block_for_C2_b1, block_for_C2_b2]).1.1.num_blks_read =
      zero_prog_state.num_blks_read +
        [block_for_C2_first, block_for_C2_bad, block_for_C2_b1, block_for_C2_b2].length :=
  uf2_failed_block_does_not_abort .rp2350 0x10100000 zero_prog_state (fun _ => 0)
    [block_for_C2_first, block_for_C2_bad, block_for_C2_b1, block_for_C2_b2] (by decide)

/-- C4 (amended): load_application_from_uf2 returns true exactly when
flash_end was available and, at end of stream, the final cross-block state
has a nonzero num_blks equal to num_blks_written; all failure cases,
including a stream with no accepted blocks (wrong platform) and a
truncated stream, return the same boolean false, undistinguished. -/
theorem uf2_success_iff_complete (p : Platform) (pae : Nat) (flash0 : Nat → Nat)
    (filename : List Nat) (blocks : List uf2_block) (sInit : prog_state_t) :
    (load_application_from_uf2 p pae flash0 filename blocks sInit).ok = true ↔
      (pae ≠ 0 ∧ (loadLoop p pae ((sInit, flash0), []) blocks).1.1.num_blks ≠ 0 ∧
        (loadLoop p pae ((sInit, flash0), []) blocks).1.1.num_blks =
          (loadLoop p pae ((sInit, flash0), []) blocks).1.1.num_blks_written) :=
  load_ok_iff p pae flash0 filename blocks sInit

/-- A stream whose blocks all carry a family id that matches no platform. -/
def block_for_C4_wrong : uf2_block :=
  { magic_start0 := UF2_MAGIC_START0, magic_start1 := UF2_MAGIC_START1,
    flags := UF2_FLAG_FAMILY_ID_PRESENT, target_addr := 0x10040000,
    payload_size := FLASH_PAGE_SIZE, block_no := 0, num_blocks := 2,
    file_size := 0x00000001, data := List.replicate 476 0x40,
    magic_end := UF2_MAGIC_END }

/-- Second wrong-family block. -/
def block_for_C4_wrong2 : uf2_block :=
  { magic_start0 := UF2_MAGIC_START0, magic_start1 := UF2_MAGIC_START1,
    flags := UF2_FLAG_FAMILY_ID_PRESENT, target_addr := 0x10040100,
    payload_size := FLASH_PAGE_SIZE, block_no := 1, num_blocks := 2,
    file_size := 0x00000001, data := List.replicate 476 0x41,
    magic_end := UF2_MAGIC_END }

/-- Outcome of loading the wrong-platform stream on RP2350. -/
def out_for_C4_wrong : LoadOut :=
  load_application_from_uf2 .rp2350 0x10100000 (fun _ => 0) []
    [block_for_C4_wrong, block_for_C4_wrong2] zero_prog_state

/-- Outcome of loading a truncated stream (2 of 3 blocks) on RP2350. -/
def out_for_C4_trunc : LoadOut :=
  load_application_from_uf2 .rp2350 0x10100000 (fun _ => 0) []
    [block_for_C2_first, block_for_C2_b1] zero_prog_state

set_option maxRecDepth 100000 in
/-- Counterexample to C4 as stated: the function's only outcomes are the
booleans; a stream with zero accepted blocks (wrong platform for every
block) and a truncated stream are both reported as the same false — the
code does not report WrongPlatform as a distinct outcome. -/
theorem uf2_no_wrong_platform_outcome_cex :
    out_for_C4_wrong.ok = false ∧ out_for_C4_trunc.ok = false ∧
    out_for_C4_wrong.ok = out_for_C4_trunc.ok ∧
    out_for_C4_wrong.s.num_blks_written = 0 ∧
    out_for_C4_trunc.s.num_blks_written = 2 ∧ out_for_C4_trunc.s.num_blks = 3 := by
  decide

/-- C8 (amended): the cross-block state is not cleared inside
load_application_from_uf2; the call runs on whatever the static held, and
for an empty stream the outcome is decided entirely by that carried state
(all-zero only at program start). -/
theorem uf2_outcome_depends_on_carried_state (p : Platform) (pae : Nat) (flash0 : Nat → Nat)
    (filename : List Nat) (sInit : prog_state_t) :
    (load_application_from_uf2 p pae flash0 filename [] sInit).ok = true ↔
      (pae ≠ 0 ∧ sInit.num_blks ≠ 0 ∧ sInit.num_blks = sInit.num_blks_written) := by
  have h := load_ok_iff p pae flash0 filename [] sInit
  simpa [loadLoop] using h

/-- The static cross-block state as a previous successful 4-block load
leaves it. -/
def stale_state_for_C8 : prog_state_t :=
  { prog_addr := 0x10040000, num_blks := 4, num_blks_read := 4, num_blks_written := 4,
    malformed_uf2 := false }

/-- Counterexample to C8 as stated: the same call (same platform,
flash_end, flash and empty stream) returns true when the static still
holds the state of a previous successful load and false from the all-zero
state, so the outcome does depend on the state left by a previous call —
nothing clears it when the call starts. -/
theorem uf2_state_not_cleared_cex :
    (load_application_from_uf2 .rp2350 0x10100000 (fun _ => 0) [] []
        stale_state_for_C8).ok = true ∧
    (load_application_from_uf2 .rp2350 0x10100000 (fun _ => 0) [] []
        zero_prog_state).ok = false := by
  decide

/-- C9: storing a boot command and then taking it returns exactly the
stored mode/arg pair and clears the validity tag, so a second take finds
nothing — a stored command is consumed at most once. -/
theorem bootcmd_store_take_roundtrip (sc : Scratch) (mode arg : Nat)
    (h1 : mode < U32) (h2 : arg < U32) :
    (bl_get_command (bl_stage3_command sc mode arg)).1 = some (mode, arg) ∧
    (bl_get_command (bl_stage3_command sc mode arg)).2.w0 = 0 ∧
    (bl_get_command ((bl_get_command (bl_stage3_command sc mode arg)).2)).1 = none := by
  unfold bl_stage3_command bl_get_command
  rw [Nat.mod_eq_of_lt h1, Nat.mod_eq_of_lt h2]
  simp [PICOCALC_BL_MAGIC]

/-- Witness for C9 at a concrete command. -/
theorem bootcmd_store_take_roundtrip_witness :
    (bl_get_command (bl_stage3_command ⟨1, 2, 3⟩ 2 0x20000000)).1 = some (2, 0x20000000) ∧
    (bl_get_command (bl_stage3_command ⟨1, 2, 3⟩ 2 0x20000000)).2.w0 = 0 ∧
    (bl_get_command ((bl_get_command (bl_stage3_command ⟨1, 2, 3⟩ 2 0x20000000)).2)).1 = none :=
  bootcmd_store_take_roundtrip ⟨1, 2, 3⟩ 2 0x20000000 (by decide) (by decide)

/-- C10: without the validity magic in scratch word 0, bl_get_command
reports no command and leaves the scratch words (and the caller's mode
variable, per the stage-3 dispatch) untouched. -/
theorem bootcmd_invalid_tag_frame (sc : Scratch) (keyboard_mode : Nat)
    (h : sc.w0 ≠ PICOCALC_BL_MAGIC) :
    bl_get_command sc = (none, sc) ∧
    stage3_select_mode keyboard_mode sc = (keyboard_mode, sc) := by
  have hg : bl_get_command sc = (none, sc) := by
    unfold bl_get_command
    rw [if_neg h]
  refine ⟨hg, ?_⟩
  unfold stage3_select_mode
  rw [hg]

/-- Witness for C10 at a concrete invalid scratch content. -/
theorem bootcmd_invalid_tag_frame_witness :
    bl_get_command ⟨0, 5, 6⟩ = (none, ⟨0, 5, 6⟩) ∧
    stage3_select_mode 1 ⟨0, 5, 6⟩ = (1, ⟨0, 5, 6⟩) :=
  bootcmd_invalid_tag_frame ⟨0, 5, 6⟩ 1 (by decide)

/-- Pointwise unfolding of a program operation. -/
lemma applyEvent_program (f : Nat → Nat) (addr : Nat) (d : List Nat) (x : Nat) :
    applyEvent f (.program addr d) x =
      if addr ≤ x ∧ x < addr + d.length then d.getD (x - addr) 0 else f x := rfl

/-- Pointwise unfolding of an erase operation. -/
lemma applyEvent_erase (f : Nat → Nat) (addr size x : Nat) :
    applyEvent f (.erase addr size) x =
      if addr ≤ x ∧ x < addr + size then 0xFF else f x := rfl

/-- Unfolding of a trace application, one operation at a time. -/
lemma applyEvents_cons (f : Nat → Nat) (e : FlashEvent) (es : List FlashEvent) :
    applyEvents f (e :: es) = applyEvents (applyEvent f e) es := rfl

/-- The empty trace changes nothing. -/
lemma applyEvents_nil (f : Nat → Nat) : applyEvents f [] = f := rfl

/-- C5 (amended): on RP2040, whenever the first accepted block's target
lies in sector 0, handle_boot_stage2 takes over and the flash bytes of
[XIP_BASE, XIP_BASE + 256) after its operations equal the pre-load bytes:
the resident stub is saved and reprogrammed in every case.  When the
block's target IS XIP_BASE, the save-and-reprogram steps are NOT skipped;
instead the block's payload is discarded (the trace consists of the erase
and the reprogram of the saved stub only), so the UF2-supplied stub is
never used. -/
theorem uf2_stub_always_preserved (f : Nat → Nat) (b : uf2_block)
    (h1 : XIP_BASE ≤ b.target_addr)
    (h2 : b.target_addr < XIP_BASE + FLASH_SECTOR_SIZE)
    (h3 : b.target_addr % FLASH_PAGE_SIZE = 0) :
    (handle_boot_stage2 .rp2040 f b).1 = true ∧
    (∀ x, XIP_BASE ≤ x → x < XIP_BASE + BOOT2_SIZE →
      applyEvents f (handle_boot_stage2 .rp2040 f b).2 x = f x) ∧
    (b.target_addr = XIP_BASE →
      (handle_boot_stage2 .rp2040 f b).2 =
        [FLASH_ERASE .rp2040 XIP_BASE (mul32 b.num_blocks b.payload_size),
         FlashEvent.program XIP_BASE (readFlash f XIP_BASE BOOT2_SIZE)]) := by
  have hnot : ¬ b.target_addr ≥ XIP_BASE + FLASH_SECTOR_SIZE := not_le.mpr h2
  have hstublen : (readFlash f XIP_BASE BOOT2_SIZE).length = BOOT2_SIZE :=
    readFlash_length f _ _
  have hg2 : ∀ x, XIP_BASE ≤ x → x < XIP_BASE + BOOT2_SIZE →
      applyEvent (applyEvent f (FLASH_ERASE .rp2040 XIP_BASE (mul32 b.num_blocks b.payload_size)))
        (FlashEvent.program XIP_BASE (readFlash f XIP_BASE BOOT2_SIZE)) x = f x := by
    intro x hx1 hx2
    rw [applyEvent_program, hstublen, if_pos ⟨hx1, hx2⟩, readFlash_getD (by omega),
      Nat.add_sub_cancel' hx1]
  unfold handle_boot_stage2
  rw [if_neg hnot]
  refine ⟨rfl, ?_, ?_⟩
  · intro x hx1 hx2
    by_cases ht : b.target_addr = XIP_BASE
    · rw [if_neg (by simpa using ht)]
      simpa [applyEvents_cons, applyEvents_nil] using hg2 x hx1 hx2
    · rw [if_pos ht]
      have hXB : XIP_BASE = 0x10000000 := rfl
      have hBS : BOOT2_SIZE = 256 := rfl
      have h3' : b.target_addr % 256 = 0 := h3
      have htge : XIP_BASE + BOOT2_SIZE ≤ b.target_addr := by omega
      have hxlt : x < b.target_addr := by omega
      show applyEvent (applyEvent (applyEvent f _) _)
        (FlashEvent.program b.target_addr (b.data.take FLASH_PAGE_SIZE)) x = f x
      rw [applyEvent_program, if_neg (by omega)]
      exact hg2 x hx1 hx2
  · intro ht
    rw [if_neg (by simpa using ht)]
    simp

/-- A first block in sector 0 but not at XIP_BASE itself. -/
def block_for_C5w : uf2_block :=
  { magic_start0 := UF2_MAGIC_START0, magic_start1 := UF2_MAGIC_START1,
    flags := UF2_FLAG_FAMILY_ID_PRESENT, target_addr := 0x10000100,
    payload_size := FLASH_PAGE_SIZE, block_no := 0, num_blocks := 2,
    file_size := RP2040_FAMILY_ID, data := List.replicate 476 0x42,
    magic_end := UF2_MAGIC_END }

set_option maxRecDepth 100000 in
/-- Witness for the amended C5: with flash holding 0x5A everywhere, after
handle_boot_stage2 on a sector-0 block the byte at XIP_BASE still reads
0x5A. -/
theorem uf2_stub_always_preserved_witness :
    (handle_boot_stage2 .rp2040 (fun _ => 0x5A) block_for_C5w).1 = true ∧
    applyEvents (fun _ => 0x5A) (handle_boot_stage2 .rp2040 (fun _ => 0x5A) block_for_C5w).2
      XIP_BASE = 0x5A := by
  have h := uf2_stub_always_preserved (fun _ => 0x5A) block_for_C5w (by decide) (by decide)
    (by decide)
  exact ⟨h.1, h.2.1 XIP_BASE (le_refl _) (by decide)⟩

/-- A first block whose target is XIP_BASE itself, supplying its own stub
page. -/
def block_for_C5_cex : uf2_block :=
  { magic_start0 := UF2_MAGIC_START0, magic_start1 := UF2_MAGIC_START1,
    flags := UF2_FLAG_FAMILY_ID_PRESENT, target_addr := XIP_BASE,
    payload_size := FLASH_PAGE_SIZE, block_no := 0, num_blocks := 1,
    file_size := RP2040_FAMILY_ID, data := List.replicate 476 0x42,
    magic_end := UF2_MAGIC_END }

set_option maxRecDepth 100000 in
/-- Counterexample to C5 as stated: for a first block with target_addr ==
XIP_BASE, the save-and-reprogram steps are NOT skipped and the
UF2-supplied payload is NOT programmed: after handle_boot_stage2 the byte
at XIP_BASE is the pre-load stub byte 0x5A, not the payload byte 0x42, and
the trace holds exactly the erase plus the reprogram of the saved stub. -/
theorem uf2_stub_replacement_cex :
    (handle_boot_stage2 .rp2040 (fun _ => 0x5A) block_for_C5_cex).1 = true ∧
    (handle_boot_stage2 .rp2040 (fun _ => 0x5A) block_for_C5_cex).2.length = 2 ∧
    applyEvents (fun _ => 0x5A) (handle_boot_stage2 .rp2040 (fun _ => 0x5A) block_for_C5_cex).2
      XIP_BASE = 0x5A ∧
    block_for_C5_cex.data.getD 0 0 = 0x42 ∧
    (0x5A : Nat) ≠ 0x42 := by
  decide

/-- Clearing the low 12 bits with the mask 0xFFFFF000 on a value below 2^32
is rounding down to a multiple of 4096. -/
lemma land_upper_mask {x : Nat} (h : x < U32) :
    Nat.land x 0xFFFFF000 = x / 4096 * 4096 := by
  have hdiv : x / 4096 * 4096 = (x >>> 12) <<< 12 := by
    rw [Nat.shiftLeft_eq, Nat.shiftRight_eq_div_pow]
  have hmask : (0xFFFFF000 : Nat) = (2 ^ 20 - 1) <<< 12 := by decide
  have hland : Nat.land x 0xFFFFF000 = x &&& 0xFFFFF000 := rfl
  rw [hland]
  apply Nat.eq_of_testBit_eq
  intro i
  rw [Nat.testBit_land, hmask, hdiv, Nat.testBit_shiftLeft, Nat.testBit_shiftLeft,
    Nat.testBit_shiftRight, Nat.testBit_two_pow_sub_one]
  by_cases h12 : 12 ≤ i
  · by_cases h32 : i < 32
    · have hi : 12 + (i - 12) = i := by omega
      rw [hi]
      have hlt : i - 12 < 20 := by omega
      simp [h12, hlt]
    · have hx : Nat.testBit x i = false := Nat.testBit_lt_two_pow (by
        calc x < U32 := h
        _ ≤ 2 ^ i := Nat.pow_le_pow_right (by norm_num) (by omega))
      have hx2 : Nat.testBit x (12 + (i - 12)) = false := by
        have hi : 12 + (i - 12) = i := by omega
        rw [hi, hx]
      simp [hx, hx2]
  · simp [h12]

/-- C6 (amended): the erase issued for the first accepted block takes one
of three shapes.  On platform B it starts exactly at the block's
target_addr, but its length is not the minimal sector round-up of
num_blks*256: the wrapper computes (size + 0x1FFF) & ~0xFFF, the minimal
4096-byte round-up PLUS one extra 4096-byte sector (for every size that
does not overflow).  On platform A with the first accepted block outside
sector 0, the erase starts at target_addr with the byte count passed
through unrounded.  On platform A with the first accepted block inside
sector 0, handle_boot_stage2 issues the erase starting at XIP_BASE (the
start of sector 0, below target_addr when target_addr is not XIP_BASE)
with the unrounded length num_blocks*payload_size taken from the block's
own num_blocks field. -/
theorem uf2_erase_start_and_rounding :
    (∀ sz : Nat, FLASH_ERASE_size .rp2040 sz = sz) ∧
    (∀ sz : Nat, sz ≤ 0xFFFFE000 →
      FLASH_ERASE_size .rp2350 sz = (sz + 4095) / 4096 * 4096 + 4096) ∧
    (∀ (pae : Nat) (s : prog_state_t) (flash : Nat → Nat) (b : uf2_block),
      (check_1st_block .rp2350 pae s b).1 = true →
      (load_step_first .rp2350 pae s flash b).2 =
        [FlashEvent.erase b.target_addr
          (FLASH_ERASE_size .rp2350 (mul32 s.num_blks b.payload_size)),
         FlashEvent.program b.target_addr (b.data.take FLASH_PAGE_SIZE)]) ∧
    (∀ (pae : Nat) (s : prog_state_t) (flash : Nat → Nat) (b : uf2_block),
      (check_1st_block .rp2040 pae s b).1 = true →
      XIP_BASE + FLASH_SECTOR_SIZE ≤ b.target_addr →
      (load_step_first .rp2040 pae s flash b).2 =
        [FlashEvent.erase b.target_addr (mul32 s.num_blks b.payload_size),
         FlashEvent.program b.target_addr (b.data.take FLASH_PAGE_SIZE)]) ∧
    (∀ (pae : Nat) (s : prog_state_t) (flash : Nat → Nat) (b : uf2_block),
      (check_1st_block .rp2040 pae s b).1 = true →
      b.target_addr < XIP_BASE + FLASH_SECTOR_SIZE →
      (load_step_first .rp2040 pae s flash b).2 =
        [FlashEvent.erase XIP_BASE (mul32 b.num_blocks b.payload_size),
         FlashEvent.program XIP_BASE (readFlash flash XIP_BASE BOOT2_SIZE)] ++
          (if b.target_addr ≠ XIP_BASE then
            [FlashEvent.program b.target_addr (b.data.take FLASH_PAGE_SIZE)]
          else
            [])) := by
  refine ⟨fun sz => rfl, ?_, ?_, ?_, ?_⟩
  · intro sz hsz
    show Nat.land (add32 sz 0x1FFF) (U32 - FLASH_SECTOR_SIZE) =
      (sz + 4095) / 4096 * 4096 + 4096
    have hU : U32 = 4294967296 := by decide
    have hadd : add32 sz 0x1FFF = sz + 0x1FFF := add32_eq (by omega)
    have hmask : U32 - FLASH_SECTOR_SIZE = 0xFFFFF000 := by decide
    rw [hadd, hmask, land_upper_mask (by omega)]
    omega
  · intro pae s flash b hc
    have hsnd := check_1st_block_snd .rp2350 pae s b
    have hfields := check_generic_block_snd_fields .rp2350 pae s b
    unfold load_step_first
    rcases hcc : check_1st_block .rp2350 pae s b with ⟨fst, s3⟩
    rw [hcc] at hc
    cases fst
    · simp at hc
    · have h3 : s3 = (check_generic_block .rp2350 pae s b).2 := by rw [← hsnd, hcc]
      have hs3 : s3.num_blks = s.num_blks := by rw [h3, hfields.2.2.1]
      simp [handle_boot_stage2, FLASH_ERASE, hs3]
  · intro pae s flash b hc hge
    have hhb : handle_boot_stage2 .rp2040 flash b = (false, []) := by
      unfold handle_boot_stage2
      rw [if_pos hge]
    have hsnd := check_1st_block_snd .rp2040 pae s b
    have hfields := check_generic_block_snd_fields .rp2040 pae s b
    unfold load_step_first
    rcases hcc : check_1st_block .rp2040 pae s b with ⟨fst, s3⟩
    rw [hcc] at hc
    cases fst
    · simp at hc
    · have h3 : s3 = (check_generic_block .rp2040 pae s b).2 := by rw [← hsnd, hcc]
      have hs3 : s3.num_blks = s.num_blks := by rw [h3, hfields.2.2.1]
      simp [hhb, FLASH_ERASE, FLASH_ERASE_size, hs3]
  · intro pae s flash b hc hlt
    have hhb : handle_boot_stage2 .rp2040 flash b =
        (true, [FLASH_ERASE .rp2040 XIP_BASE (mul32 b.num_blocks b.payload_size),
                FlashEvent.program XIP_BASE (readFlash flash XIP_BASE BOOT2_SIZE)] ++
          (if b.target_addr ≠ XIP_BASE then
            [FlashEvent.program b.target_addr (b.data.take FLASH_PAGE_SIZE)]
          else
            [])) := by
      unfold handle_boot_stage2
      rw [if_neg (not_le.mpr hlt)]
    unfold load_step_first
    rcases hcc : check_1st_block .rp2040 pae s b with ⟨fst, s3⟩
    rw [hcc] at hc
    cases fst
    · simp at hc
    · simp [hhb, FLASH_ERASE, FLASH_ERASE_size]

/-- First block of a 16-page RP2350 image (exactly one 4096-byte
sector). -/
def block_for_C6 : uf2_block :=
  { magic_start0 := UF2_MAGIC_START0, magic_start1 := UF2_MAGIC_START1,
    flags := UF2_FLAG_FAMILY_ID_PRESENT, target_addr := 0x10040000,
    payload_size := FLASH_PAGE_SIZE, block_no := 0, num_blocks := 16,
    file_size := RP2350_ARM_S_FAMILY_ID, data := List.replicate 476 0x40,
    magic_end := UF2_MAGIC_END }

/-- First block of a 16-page RP2040 image outside sector 0. -/
def block_for_C6_rp2040 : uf2_block :=
  { magic_start0 := UF2_MAGIC_START0, magic_start1 := UF2_MAGIC_START1,
    flags := UF2_FLAG_FAMILY_ID_PRESENT, target_addr := 0x10040000,
    payload_size := FLASH_PAGE_SIZE, block_no := 0, num_blocks := 16,
    file_size := RP2040_FAMILY_ID, data := List.replicate 476 0x40,
    magic_end := UF2_MAGIC_END }

/-- First block of a 2-page RP2040 image starting inside sector 0 (but not
at XIP_BASE). -/
def block_for_C6_s0 : uf2_block :=
  { magic_start0 := UF2_MAGIC_START0, magic_start1 := UF2_MAGIC_START1,
    flags := UF2_FLAG_FAMILY_ID_PRESENT, target_addr := 0x10000100,
    payload_size := FLASH_PAGE_SIZE, block_no := 0, num_blocks := 2,
    file_size := RP2040_FAMILY_ID, data := List.replicate 476 0x40,
    magic_end := UF2_MAGIC_END }

set_option maxRecDepth 100000 in
/-- Witness for the amended C6: a 16-page (4096-byte) image erases 8192
bytes on RP2350 starting at its target address; the same image on RP2040
outside sector 0 erases the unrounded 4096 bytes from its target address;
and a sector-0 first block on RP2040 erases from XIP_BASE with the
unrounded num_blocks*payload_size. -/
theorem uf2_erase_start_and_rounding_witness :
    FLASH_ERASE_size .rp2040 4096 = 4096 ∧
    FLASH_ERASE_size .rp2350 4096 = (4096 + 4095) / 4096 * 4096 + 4096 ∧
    (load_step_first .rp2350 0x10100000
        { zero_prog_state with num_blks_read := 1, num_blks := 16 } (fun _ => 0)
        block_for_C6).2 =
      [FlashEvent.erase block_for_C6.target_addr
        (FLASH_ERASE_size .rp2350 (mul32 16 block_for_C6.payload_size)),
       FlashEvent.program block_for_C6.target_addr
         (block_for_C6.data.take FLASH_PAGE_SIZE)] ∧
    (load_step_first .rp2040 0x10100000
        { zero_prog_state with num_blks_read := 1, num_blks := 16 } (fun _ => 0)
        block_for_C6_rp2040).2 =
      [FlashEvent.erase block_for_C6_rp2040.target_addr
        (mul32 16 block_for_C6_rp2040.payload_size),
       FlashEvent.program block_for_C6_rp2040.target_addr
         (block_for_C6_rp2040.data.take FLASH_PAGE_SIZE)] ∧
    (load_step_first .rp2040 0x10100000
        { zero_prog_state with num_blks_read := 1, num_blks := 2 } (fun _ => 0x5A)
        block_for_C6_s0).2 =
      [FlashEvent.erase XIP_BASE (mul32 block_for_C6_s0.num_blocks
          block_for_C6_s0.payload_size),
       FlashEvent.program XIP_BASE (readFlash (fun _ => 0x5A) XIP_BASE BOOT2_SIZE)] ++
        (if block_for_C6_s0.target_addr ≠ XIP_BASE then
          [FlashEvent.program block_for_C6_s0.target_addr
            (block_for_C6_s0.data.take FLASH_PAGE_SIZE)]
        else
          []) :=
  ⟨uf2_erase_start_and_rounding.1 4096,
   uf2_erase_start_and_rounding.2.1 4096 (by decide),
   uf2_erase_start_and_rounding.2.2.1 0x10100000
     { zero_prog_state with num_blks_read := 1, num_blks := 16 } (fun _ => 0) block_for_C6
     (by decide),
   uf2_erase_start_and_rounding.2.2.2.1 0x10100000
     { zero_prog_state with num_blks_read := 1, num_blks := 16 } (fun _ => 0)
     block_for_C6_rp2040 (by decide) (by decide),
   uf2_erase_start_and_rounding.2.2.2.2 0x10100000
     { zero_prog_state with num_blks_read := 1, num_blks := 2 } (fun _ => 0x5A)
     block_for_C6_s0 (by decide) (by decide)⟩

/-- Outcome of streaming just the first block of the 16-page image. -/
def out_for_C6 : LoadOut :=
  load_application_from_uf2 .rp2350 0x10100000 (fun _ => 0) [] [block_for_C6] zero_prog_state

set_option maxRecDepth 100000 in
/-- Counterexample to C6 as stated: for a 16-block image (num_blocks*256 =
4096, already sector-aligned, so the round-up is 4096), the erase actually
issued on RP2350 is 8192 bytes long — one full sector beyond the
rounded-up upper bound. -/
theorem uf2_erase_rounding_cex :
    out_for_C6.trace.getD 0 (.program 0 []) = FlashEvent.erase 0x10040000 8192 ∧
    mul32 block_for_C6.num_blocks block_for_C6.payload_size = 4096 ∧
    (4096 + 4095) / 4096 * 4096 = 4096 ∧
    (8192 : Nat) ≠ 4096 := by
  decide

/-- On the silicon-erratum block with num_blocks different from 2,
check_generic_block rejects the block and sets the malformed_uf2 flag. -/
lemma check_generic_erratum (p : Platform) (pae : Nat) (s : prog_state_t) (b : uf2_block)
    (hm0 : b.magic_start0 = UF2_MAGIC_START0) (hm1 : b.magic_start1 = UF2_MAGIC_START1)
    (hm2 : b.magic_end = UF2_MAGIC_END)
    (hflag0 : b.flags &&& UF2_FLAG_NOT_MAIN_FLASH = 0)
    (hps : b.payload_size = FLASH_PAGE_SIZE)
    (hnb : b.num_blocks ≠ 0)
    (hfam : b.flags &&& UF2_FLAG_FAMILY_ID_PRESENT ≠ 0)
    (habs : b.file_size = ABSOLUTE_FAMILY_ID)
    (hbn : b.block_no = 0)
    (hta : b.target_addr = 0x10FFFF00)
    (h2 : b.num_blocks ≠ 2) :
    check_generic_block p pae s b = (false, { s with malformed_uf2 := true }) := by
  unfold check_generic_block
  rw [if_neg (by push_neg; exact ⟨hm0.symm, hm1.symm, hm2.symm⟩)]
  rw [if_neg (by simp [hflag0])]
  rw [if_neg (by rw [hta]; decide)]
  rw [if_neg (by simp [hps])]
  rw [if_neg hnb]
  rw [if_neg (by rw [hbn]; exact Nat.not_le.mpr (Nat.pos_of_ne_zero hnb))]
  rw [if_pos ⟨hfam, habs, hbn, hta⟩, if_pos h2]

/-- When the malformed flag is already set, check_generic_block keeps it
set in its returned state. -/
lemma check_generic_block_keeps_malformed {p : Platform} {pae : Nat} {s : prog_state_t}
    {b : uf2_block} (h : s.malformed_uf2 = true) :
    (check_generic_block p pae s b).2.malformed_uf2 = true := by
  rcases check_generic_block_cases p pae s b with hc | ⟨_, hc | hc⟩ <;> rw [hc] <;> simp [h]

/-- C7 (amended): an erratum block (ABSOLUTE family, block 0, target
0x10FFFF00) that additionally has num_blocks different from 2 is skipped
with no flash operations and sets the malformed_uf2 flag; from then on a
first block is accepted only with block_no 1, the cross-block state
records each candidate's num_blocks - 1 as the effective total, and the
cross-block checks subtract 1 from every block_no and num_blocks.  (An
erratum block whose num_blocks equals 2 is skipped WITHOUT the fix-up; see
the counterexample.) -/
theorem uf2_erratum_fixup (p : Platform) (pae : Nat) (s : prog_state_t) (flash : Nat → Nat)
    (eb : uf2_block)
    (hw : s.num_blks_written = 0)
    (hm0 : eb.magic_start0 = UF2_MAGIC_START0) (hm1 : eb.magic_start1 = UF2_MAGIC_START1)
    (hm2 : eb.magic_end = UF2_MAGIC_END)
    (hflag0 : eb.flags &&& UF2_FLAG_NOT_MAIN_FLASH = 0)
    (hps : eb.payload_size = FLASH_PAGE_SIZE)
    (hnb : eb.num_blocks ≠ 0)
    (hfam : eb.flags &&& UF2_FLAG_FAMILY_ID_PRESENT ≠ 0)
    (habs : eb.file_size = ABSOLUTE_FAMILY_ID)
    (hbn : eb.block_no = 0)
    (hta : eb.target_addr = 0x10FFFF00)
    (h2 : eb.num_blocks ≠ 2) :
    (load_step p pae (s, flash) eb).2 = [] ∧
    (load_step p pae (s, flash) eb).1.1.malformed_uf2 = true ∧
    (load_step p pae (s, flash) eb).1.1.num_blks_written = 0 ∧
    (∀ (s1 : prog_state_t) (b1 : uf2_block), s1.malformed_uf2 = true →
      (check_1st_block p pae s1 b1).1 = true → b1.block_no = 1) ∧
    (∀ (s1 : prog_state_t) (b1 : uf2_block), s1.malformed_uf2 = true →
      (check_block p pae s1 b1).1 = true →
      s1.num_blks_written = sub32 b1.block_no 1 ∧ s1.num_blks = sub32 b1.num_blocks 1) ∧
    (∀ (s1 : prog_state_t) (flash1 : Nat → Nat) (b1 : uf2_block),
      s1.num_blks_written = 0 → s1.malformed_uf2 = true →
      (load_step p pae (s1, flash1) b1).1.1.num_blks = sub32 b1.num_blocks 1) := by
  have hstep : ∀ (s' : prog_state_t),
      s'.num_blks_written = 0 →
      load_step p pae (s', flash) eb =
        ((({ s' with num_blks_read := add32 s'.num_blks_read 1,
                     num_blks := sub32 eb.num_blocks (if s'.malformed_uf2 then 1 else 0),
                     malformed_uf2 := true }, flash)), []) := by
    intro s' hw'
    rw [load_step_eq, if_neg (by omega)]
    unfold load_step_first
    rw [check_1st_block, check_generic_erratum p pae _ eb hm0 hm1 hm2 hflag0 hps hnb hfam habs
      hbn hta h2]
  refine ⟨?_, ?_, ?_, ?_, ?_, ?_⟩
  · rw [hstep s hw]
  · rw [hstep s hw]
  · rw [hstep s hw]
    simpa using hw
  · intro s1 b1 hmal hc
    have hsg := @check_generic_block_keeps_malformed p pae s1 b1 hmal
    unfold check_1st_block at hc
    rcases hg : check_generic_block p pae s1 b1 with ⟨fst, sg⟩
    rw [hg] at hc hsg
    cases fst
    · simp at hc
    · simp only at hc hsg
      by_contra hne
      simp [hsg, hne] at hc
  · intro s1 b1 hmal hc
    unfold check_block at hc
    rcases hg : check_generic_block p pae s1 b1 with ⟨fst, sg⟩
    rw [hg] at hc
    cases fst
    · simp at hc
    · have hgt := @check_generic_block_snd_of_true p pae s1 b1 (by rw [hg])
      rw [hg] at hgt
      simp only at hgt hc
      subst hgt
      rw [hmal] at hc
      simp only [if_pos] at hc
      split_ifs at hc with hi1 hi2 hi3
      simp at hi1 hi2
      exact ⟨hi2, hi1⟩
  · intro s1 flash1 b1 hw1 hmal
    rw [load_step_eq, if_neg (by omega)]
    set s2 : prog_state_t :=
      { s1 with num_blks_read := add32 s1.num_blks_read 1,
                num_blks := sub32 b1.num_blocks (if s1.malformed_uf2 then 1 else 0) } with hs2
    have hs2n : s2.num_blks = sub32 b1.num_blocks 1 := by rw [hs2]; simp [hmal]
    unfold load_step_first
    rcases hcc : check_1st_block p pae s2 b1 with ⟨fst, s3⟩
    have hs3 : s3.num_blks = sub32 b1.num_blocks 1 := by
      have hsnd := check_1st_block_snd p pae s2 b1
      rw [hcc] at hsnd
      simp only at hsnd
      have hfields := check_generic_block_snd_fields p pae s2 b1
      rw [← hsnd] at hfields
      rw [hfields.2.2.1, hs2n]
    cases fst <;> simp [hs3]

/-- A silicon-erratum block with num_blocks = 3 (the malformed shape). -/
def block_for_C7_e10m : uf2_block :=
  { magic_start0 := UF2_MAGIC_START0, magic_start1 := UF2_MAGIC_START1,
    flags := UF2_FLAG_FAMILY_ID_PRESENT, target_addr := 0x10FFFF00,
    payload_size := FLASH_PAGE_SIZE, block_no := 0, num_blocks := 3,
    file_size := ABSOLUTE_FAMILY_ID, data := List.replicate 476 0,
    magic_end := UF2_MAGIC_END }

/-- The first real block of the malformed stream: block_no 1 of 3. -/
def block_for_C7_real : uf2_block :=
  { magic_start0 := UF2_MAGIC_START0, magic_start1 := UF2_MAGIC_START1,
    flags := UF2_FLAG_FAMILY_ID_PRESENT, target_addr := 0x10040000,
    payload_size := FLASH_PAGE_SIZE, block_no := 1, num_blocks := 3,
    file_size := RP2350_ARM_S_FAMILY_ID, data := List.replicate 476 0x41,
    magic_end := UF2_MAGIC_END }

/-- The second real block of the malformed stream: block_no 2 of 3. -/
def block_for_C7_real2 : uf2_block :=
  { magic_start0 := UF2_MAGIC_START0, magic_start1 := UF2_MAGIC_START1,
    flags := UF2_FLAG_FAMILY_ID_PRESENT, target_addr := 0x10040100,
    payload_size := FLASH_PAGE_SIZE, block_no := 2, num_blocks := 3,
    file_size := RP2350_ARM_S_FAMILY_ID, data := List.replicate 476 0x42,
    magic_end := UF2_MAGIC_END }

/-- Cross-block state after the erratum block and the first accepted real
block of the malformed 3-block stream. -/
def state_for_C7 : prog_state_t :=
  { prog_addr := 0x10040000, num_blks := 2, num_blks_read := 2, num_blks_written := 1,
    malformed_uf2 := true }

set_option maxRecDepth 100000 in
/-- Witness for the amended C7 on the concrete malformed stream. -/
theorem uf2_erratum_fixup_witness :
    (load_step .rp2350 0x10100000 (zero_prog_state, fun _ => 0) block_for_C7_e10m).2 = [] ∧
    (load_step .rp2350 0x10100000 (zero_prog_state, fun _ => 0)
      block_for_C7_e10m).1.1.malformed_uf2 = true ∧
    (load_step .rp2350 0x10100000 (zero_prog_state, fun _ => 0)
      block_for_C7_e10m).1.1.num_blks_written = 0 ∧
    block_for_C7_real.block_no = 1 ∧
    state_for_C7.num_blks_written = sub32 block_for_C7_real2.block_no 1 ∧
    state_for_C7.num_blks = sub32 block_for_C7_real2.num_blocks 1 := by
  have h := uf2_erratum_fixup .rp2350 0x10100000 zero_prog_state (fun _ => 0) block_for_C7_e10m
    (by decide) (by decide) (by decide) (by decide) (by decide) (by decide) (by decide)
    (by decide) (by decide) (by decide) (by decide) (by decide)
  refine ⟨h.1, h.2.1, h.2.2.1, ?_, ?_⟩
  · exact h.2.2.2.1
      { prog_addr := 0, num_blks := 2, num_blks_read := 2, num_blks_written := 0,
        malformed_uf2 := true } block_for_C7_real (by decide) (by decide)
  · exact h.2.2.2.2.1 state_for_C7 block_for_C7_real2 (by decide) (by decide)

/-- A silicon-erratum block with num_blocks = 2, exactly as the claim's
antecedent allows. -/
def block_for_C7_e10_2 : uf2_block :=
  { magic_start0 := UF2_MAGIC_START0, magic_start1 := UF2_MAGIC_START1,
    flags := UF2_FLAG_FAMILY_ID_PRESENT, target_addr := 0x10FFFF00,
    payload_size := FLASH_PAGE_SIZE, block_no := 0, num_blocks := 2,
    file_size := ABSOLUTE_FAMILY_ID, data := List.replicate 476 0,
    magic_end := UF2_MAGIC_END }

/-- A real block with block_no 1 following the num_blocks = 2 erratum
block, which the claim says is accepted. -/
def block_for_C7_real_b1 : uf2_block :=
  { magic_start0 := UF2_MAGIC_START0, magic_start1 := UF2_MAGIC_START1,
    flags := UF2_FLAG_FAMILY_ID_PRESENT, target_addr := 0x10040000,
    payload_size := FLASH_PAGE_SIZE, block_no := 1, num_blocks := 2,
    file_size := RP2350_ARM_S_FAMILY_ID, data := List.replicate 476 0x41,
    magic_end := UF2_MAGIC_END }

/-- Outcome of streaming the num_blocks = 2 erratum block followed by a
block_no = 1 real block. -/
def out_for_C7 : LoadOut :=
  load_application_from_uf2 .rp2350 0x10100000 (fun _ => 0) []
    [block_for_C7_e10_2, block_for_C7_real_b1] zero_prog_state

set_option maxRecDepth 100000 in
/-- Counterexample to C7 as stated: when the silicon-erratum first block
has num_blocks = 2, it is skipped WITHOUT the fix-up — the malformed flag
stays false, the cross-block state records num_blocks (2), not
num_blocks - 1, and the following real block with block_no = 1 is NOT
accepted (nothing is programmed). -/
theorem uf2_erratum_no_fixup_cex :
    out_for_C7.s.malformed_uf2 = false ∧
    out_for_C7.s.num_blks = 2 ∧
    out_for_C7.s.num_blks_written = 0 ∧
    out_for_C7.trace = [] ∧
    out_for_C7.ok = false := by
  decide
